import Mathlib

/-!
Shallow embedding of the Bun Lambda runtime loop
(src/scripts/publish-layer.ts, runtime portion).

JavaScript runtime values are modelled by `JSValue`.  The runtime builtins
the code relies on (`Bun.inspect`, `String(...)` coercion, `JSON.stringify`,
`parseInt`, `response.json()`) are modelled by executable Lean functions on
this type; HTTP traffic is modelled by explicit `HttpResponse` records, and
the side effects of one loop iteration are recorded as an ordered `Event`
trace.
-/

namespace BunRuntime

/-! ## String utilities (computable stand-ins for JS string builtins) -/

/-- Whether `needle` occurs at the start of `hay` (on character lists);
models `String.prototype.startsWith`. -/
def listStartsWith : List Char → List Char → Bool
  | _, [] => true
  | [], _ :: _ => false
  | c :: cs, d :: ds => c = d && listStartsWith cs ds

/-- Whether `needle` occurs anywhere inside `hay` (on character lists). -/
def listOccurs : List Char → List Char → Bool
  | [], needle => needle.isEmpty
  | c :: cs, needle => listStartsWith (c :: cs) needle || listOccurs cs needle

/-- Whether the string `needle` occurs inside the string `hay`. -/
def containsStr (hay needle : String) : Bool :=
  listOccurs hay.data needle.data

/-- Accumulator pass for `splitLines`. -/
def splitLinesAux : List Char → List Char → List String
  | [], acc => [String.mk acc.reverse]
  | c :: cs, acc =>
    if c = '\n' then String.mk acc.reverse :: splitLinesAux cs []
    else splitLinesAux cs (c :: acc)

/-- Models `s.split("\n")`: the lines of `s`, keeping empty segments. -/
def splitLines (s : String) : List String :=
  splitLinesAux s.data []

mutual

/-- Model of a JavaScript runtime value, as far as the runtime code
inspects values: primitives, `Error` instances (with `name`, `message` and
optional `stack`), functions (tagged so distinct exports are
distinguishable), arrays and plain objects. -/
inductive JSValue where
  | undefined : JSValue
  | null : JSValue
  | bool (b : Bool) : JSValue
  | num (n : Int) : JSValue
  | str (s : String) : JSValue
  | errorObj (name message : String) (stack : Option String) : JSValue
  | func (tag : String) : JSValue
  | arr (elems : JSList) : JSValue
  | obj (fields : JSFields) : JSValue
deriving DecidableEq

/-- A list of JavaScript values (array elements). -/
inductive JSList where
  | nil : JSList
  | cons (v : JSValue) (rest : JSList) : JSList
deriving DecidableEq

/-- Key/value fields of a plain JavaScript object, in insertion order. -/
inductive JSFields where
  | nil : JSFields
  | cons (k : String) (v : JSValue) (rest : JSFields) : JSFields
deriving DecidableEq

end

/-- First field with the given key, if any. -/
def JSFields.find : JSFields → String → Option JSValue
  | .nil, _ => none
  | .cons k v rest, key => if k = key then some v else rest.find key

/-- Property lookup on a plain object (`v[k]`): first matching key, and
`undefined` when the key is absent or the value is not a plain object. -/
def getField (v : JSValue) (k : String) : JSValue :=
  match v with
  | .obj fields =>
    match fields.find k with
    | some w => w
    | none => .undefined
  | _ => .undefined

/-- Models `typeof v === "function"`. -/
def isFunctionV : JSValue → Bool
  | .func _ => true
  | _ => false

mutual

/-- Model of the `Bun.inspect` builtin: a human-readable rendering of an
arbitrary value (strings are quoted, objects and arrays rendered
structurally). -/
def bunInspect : JSValue → String
  | .undefined => "undefined"
  | .null => "null"
  | .bool b => if b then "true" else "false"
  | .num n => toString n
  | .str s => "\"" ++ s ++ "\""
  | .errorObj name message _ => name ++ ": " ++ message
  | .func tag => "[Function: " ++ tag ++ "]"
  | .arr elems => "[ " ++ String.intercalate ", " (bunInspectList elems) ++ " ]"
  | .obj fields => "\x7b " ++ String.intercalate ", " (bunInspectFields fields) ++ " \x7d"

/-- Renders each array element. -/
def bunInspectList : JSList → List String
  | .nil => []
  | .cons v vs => bunInspect v :: bunInspectList vs

/-- Renders each object field as `key: value`. -/
def bunInspectFields : JSFields → List String
  | .nil => []
  | .cons k v fs => (k ++ ": " ++ bunInspect v) :: bunInspectFields fs

end

mutual

/-- Model of JavaScript string coercion (template literals / `String(v)`). -/
def jsToString : JSValue → String
  | .undefined => "undefined"
  | .null => "null"
  | .bool b => if b then "true" else "false"
  | .num n => toString n
  | .str s => s
  | .errorObj name message _ => name ++ ": " ++ message
  | .func tag => "[Function: " ++ tag ++ "]"
  | .arr elems => String.intercalate "," (jsToStringList elems)
  | .obj _ => "[object Object]"

/-- String coercion of each array element. -/
def jsToStringList : JSList → List String
  | .nil => []
  | .cons v vs => jsToString v :: jsToStringList vs

end

/-- JSON string escaping used by the `JSON.stringify` model. -/
def jsonEscapeChar (c : Char) : String :=
  if c = '"' then "\\\""
  else if c = '\\' then "\\\\"
  else if c = '\n' then "\\n"
  else String.singleton c

/-- A JSON string literal for `s`. -/
def jsonQuote (s : String) : String :=
  "\"" ++ String.join (s.data.map jsonEscapeChar) ++ "\""

mutual

/-- Model of the `JSON.stringify` builtin.  `none` models the cases where
`JSON.stringify` returns `undefined` (functions and `undefined` itself);
inside arrays those become `null`, inside objects the entry is dropped;
`Error` instances have no enumerable own properties. -/
def jsonStringify : JSValue → Option String
  | .undefined => none
  | .null => some "null"
  | .bool b => some (if b then "true" else "false")
  | .num n => some (toString n)
  | .str s => some (jsonQuote s)
  | .errorObj _ _ _ => some "\x7b\x7d"
  | .func _ => none
  | .arr elems => some ("[" ++ String.intercalate "," (jsonStringifyList elems) ++ "]")
  | .obj fields =>
    some ("\x7b" ++ String.intercalate "," (jsonStringifyFields fields) ++ "\x7d")

/-- Array elements: unstringifiable elements render as `null`. -/
def jsonStringifyList : JSList → List String
  | .nil => []
  | .cons v vs =>
    (match jsonStringify v with
     | some s => s
     | none => "null") :: jsonStringifyList vs

/-- Object fields: unstringifiable values are dropped. -/
def jsonStringifyFields : JSFields → List String
  | .nil => []
  | .cons k v fs =>
    match jsonStringify v with
    | some s => (jsonQuote k ++ ":" ++ s) :: jsonStringifyFields fs
    | none => jsonStringifyFields fs

end

/-! ## Error formatting (`isSerializableError`, `formatError`, catch-site wrap) -/

/-- The canonical error envelope `LambdaError` (`errorType`, `errorMessage`,
optional `stackTrace`).  `errorType` is carried as a `JSValue` because the
`type` property of a structured error object is read untyped at runtime. -/
structure LambdaError where
  errorType : JSValue
  errorMessage : String
  stackTrace : Option (List String) := none
deriving DecidableEq

/-- Predicate `isSerializableError`: `error instanceof Error`, or a non-null object
with both a `type` and a `cause` property. -/
def isSerializableError : JSValue → Bool
  | .errorObj _ _ _ => true
  | .obj fields => (fields.find "type").isSome && (fields.find "cause").isSome
  | _ => false

/-- Function `formatError`: a native `Error` keeps its own name, message and stack
(split on newlines); any other serializable error carries its `type` as the
error type and `Bun.inspect` of its `cause` as the message, with no stack. -/
def formatError (e : JSValue) : LambdaError :=
  match e with
  | .errorObj name message stack =>
    { errorType := .str name
      errorMessage := message
      stackTrace := stack.map splitLines }
  | _ =>
    { errorType := getField e "type"
      errorMessage := bunInspect (getField e "cause")
      stackTrace := none }

/-- Builds the structured error object `\x7b type, cause \x7d`. -/
def mkTypeCause (type : String) (cause : JSValue) : JSValue :=
  .obj (.cons "type" (.str type) (.cons "cause" cause .nil))

/-- The wrap applied at the invocation-loop catch site: a caught value that
is not already a serializable error becomes
`\x7b type: "UnknownError", cause \x7d`. -/
def classifyCaught (cause : JSValue) : JSValue :=
  if isSerializableError cause then cause else mkTypeCause "UnknownError" cause

/-! ## Environment resolver (`env` / `exit`) -/

/-- Reader `env(name, fallback?)`: the process environment value if present, else
the fallback if provided, else `exit` with a message naming the variable.
The `Except` error carries the messages `exit` prints before terminating
the process. -/
def env (environ : List (String × String)) (name : String)
    (fallback : Option String) : Except (List String) String :=
  match environ.lookup name with
  | some value => .ok value
  | none =>
    match fallback with
    | some value => .ok value
    | none =>
      .error ["Runtime failed to find the '" ++ name ++ "' environment variable"]

/-! ## Runtime API client (`lambdaFetch` and the four wire operations) -/

/-- An HTTP response from the runtime API.  `jsonBody` models the outcome
of `response.json()`: `none` when the body is not valid JSON (the parse
throws), `some v` for the parsed event. -/
structure HttpResponse where
  ok : Bool
  status : Nat
  headers : List (String × String)
  jsonBody : Option JSValue := none
deriving DecidableEq

/-- Models `response.headers.get(k)`. -/
def headerGet (r : HttpResponse) (k : String) : Option String :=
  r.headers.lookup k

/-- Function `lambdaFetch`: every wire operation (fetch next invocation, send
response, send invocation error, send init error) funnels through this;
a non-`ok` response terminates the process with a status message. -/
def lambdaFetch (response : HttpResponse) : Except (List String) HttpResponse :=
  if response.ok then .ok response
  else
    .error ["Runtime failed to send request to Lambda [status: " ++
      toString response.status ++ "]"]

/-! ## Receiving a request -/

/-- Model of the `parseInt` builtin on the strings this runtime feeds it:
the value of the longest digit prefix, `none` for `NaN`. -/
def jsParseInt (s : String) : Option Int :=
  let digits := s.data.takeWhile Char.isDigit
  if digits.isEmpty then none
  else some (Int.ofNat (digits.foldl (fun a c => a * 10 + (c.toNat - 48)) 0))

/-- Models `parseInt(header ?? "0") || null`: an absent header parses as `0`, and
both `NaN` and `0` collapse to `null`. -/
def parseDeadline (header : Option String) : Option Int :=
  match jsParseInt (header.getD "0") with
  | none => none
  | some n => if n = 0 then none else some n

/-- A received invocation request. -/
structure LambdaRequest where
  requestId : String
  traceId : String
  deadlineMs : Option Int
  event : JSValue
deriving DecidableEq

/-- Function `receiveRequest`: fetches the next invocation (through `lambdaFetch`),
then requires the request-id header, then the trace-id header, then a JSON
body; each missing piece terminates the process with the corresponding
message (`exit` also logs the JSON parse cause, not modelled). -/
def receiveRequest (response : HttpResponse) :
    Except (List String) LambdaRequest :=
  match lambdaFetch response with
  | .error msgs => .error msgs
  | .ok r =>
    match headerGet r "Lambda-Runtime-Aws-Request-Id" with
    | none => .error ["Runtime received a request without a request ID"]
    | some requestId =>
      match headerGet r "Lambda-Runtime-Trace-Id" with
      | none => .error ["Runtime received a request without a trace ID"]
      | some traceId =>
        match r.jsonBody with
        | none => .error ["Runtime received a request with invalid JSON"]
        | some event =>
          .ok { requestId := requestId
                traceId := traceId
                deadlineMs := parseDeadline (headerGet r "Lambda-Runtime-Deadline-Ms")
                event := event }

/-! ## The invocation loop -/

/-- The execution budget: `Math.max(1, (deadlineMs === null ? Date.now() +
60_000 : deadlineMs) - Date.now())`, with the two `Date.now()` reads
modelled as the single instant `now`. -/
def durationMs (now : Int) (deadlineMs : Option Int) : Int :=
  max 1 ((match deadlineMs with
    | none => now + 60000
    | some d => d) - now)

/-- The body handed to `sendInvocationResponse`: `null` stays `null`, a
string passes through verbatim, anything else is `JSON.stringify`-encoded. -/
def serializeBody (data : JSValue) : Option String :=
  match data with
  | .null => none
  | .str s => some s
  | _ => jsonStringify data

/-- Which of the two raced operations settles first for an invocation:
the handler resolving with a value, the handler rejecting with a thrown
value, or the budget timer elapsing. -/
inductive RaceOutcome where
  | settled (v : JSValue) : RaceOutcome
  | threw (cause : JSValue) : RaceOutcome
  | timedOut : RaceOutcome
deriving DecidableEq

/-- An outgoing wire operation of the runtime API client. -/
inductive WireCall where
  | sendInvocationResponse (requestId : String) (body : Option String) : WireCall
  | sendInvocationErr (requestId : String) (e : LambdaError) : WireCall
  | sendInitErr (e : LambdaError) : WireCall
deriving DecidableEq

/-- Observable steps of the runtime, in program order. -/
inductive Event where
  | pollNext : Event
  | setTrace (traceId : String) : Event
  | invokeHandler (event : JSValue) : Event
  | resetTrace : Event
  | wire (c : WireCall) : Event
  | exitProc (msgs : List String) : Event
  | iterEnd : Event
deriving DecidableEq

/-- Issues a wire call whose HTTP response is `reportResponse`; a non-`ok`
response makes `lambdaFetch` exit the process, otherwise the events in
`afterOk` follow. -/
def reportStep (reportResponse : HttpResponse) (c : WireCall)
    (afterOk : List Event) : List Event :=
  Event.wire c ::
    (match lambdaFetch reportResponse with
     | .error msgs => [Event.exitProc msgs]
     | .ok _ => afterOk)

/-- One iteration of `while (true)`: poll, receive (fatal on protocol
violations), set the trace id, race the handler against the budget timer,
report the outcome, reset the trace id, repeat.  `pollResponse` is the
response to `invocation/next`; `now` the current time; `race` which racer
settles first; `reportResponse` the response to the single report call of
this iteration.  On the thrown path the catch block reports before the
`finally` resets the trace id (and a failed report exits without running
the `finally`); on the success and timeout paths the `finally` has already
reset the trace id before the report is sent. -/
def runIteration (pollResponse : HttpResponse) (now : Int)
    (race : RaceOutcome) (reportResponse : HttpResponse) : List Event :=
  Event.pollNext ::
    match receiveRequest pollResponse with
    | .error msgs => [Event.exitProc msgs]
    | .ok req =>
      let dur := durationMs now req.deadlineMs
      Event.setTrace req.traceId :: Event.invokeHandler req.event ::
        match race with
        | .threw cause =>
          reportStep reportResponse
            (.sendInvocationErr req.requestId (formatError (classifyCaught cause)))
            [Event.resetTrace, Event.iterEnd]
        | .timedOut =>
          Event.resetTrace ::
            reportStep reportResponse
              (.sendInvocationErr req.requestId (formatError (mkTypeCause
                "TimeoutError"
                (.str ("Function timed out after " ++ toString dur ++ "ms")))))
              [Event.iterEnd]
        | .settled v =>
          Event.resetTrace ::
            reportStep reportResponse
              (.sendInvocationResponse req.requestId (serializeBody v))
              [Event.iterEnd]

/-- Replays the ambient trace-correlation slot (`_X_AMZN_TRACE_ID`) over an
event trace: `setTraceId` writes it, `resetTraceId` deletes it. -/
def traceSlotAfter (events : List Event) : Option String :=
  events.foldl
    (fun slot e =>
      match e with
      | .setTrace t => some t
      | .resetTrace => none
      | _ => slot)
    none

/-! ## Handler loader (`init`, cold start) -/

/-- Models `handlerName.substring(0, handlerName.lastIndexOf("."))`: everything
before the last dot, or the empty string when there is no dot. -/
def fileNameOf (handlerName : String) : String :=
  String.mk (((handlerName.data.reverse.dropWhile (fun c => c ≠ '.')).drop 1).reverse)

/-- Models `handlerName.substring(handlerName.lastIndexOf(".") + 1)`: everything
after the last dot, or the whole string when there is no dot. -/
def moduleNameOf (handlerName : String) : String :=
  String.mk ((handlerName.data.reverse.takeWhile (fun c => c ≠ '.')).reverse)

/-- The path handed to `import`:
`` `$\x7bLAMBDA_TASK_ROOT\x7d/$\x7bfileName\x7d` ``. -/
def attemptedPath (taskRoot handlerName : String) : String :=
  taskRoot ++ "/" ++ fileNameOf handlerName

/-- The module-not-found test on the `import` failure:
`cause instanceof Error && cause.message.startsWith("Cannot find module")`. -/
def isNotFoundErr : JSValue → Bool
  | .errorObj _ message _ => listStartsWith message.data "Cannot find module".data
  | _ => false

/-- Resolution `file["default"] ?? file[moduleName]`: the default export unless it is
nullish, else the named export; an absent export reads as `undefined`. -/
def resolveExport (exports : JSFields) (moduleName : String) : JSValue :=
  let d := (exports.find "default").getD .undefined
  if d = .undefined ∨ d = .null then (exports.find moduleName).getD .undefined else d

/-- Outcome of `init`: either the resolved handler callable, or the error
envelope that `throwError` reports through `sendInitError` before the
process exits. -/
inductive InitResult where
  | ok (handler : JSValue) : InitResult
  | fail (sent : LambdaError) : InitResult
deriving DecidableEq

/-- Function `init`: splits the `_HANDLER` value on its last dot, imports the file
(`importResult` models `import(filePath)`: `.error cause` when the import
throws, `.ok exports` with the module's export table otherwise) and
resolves the callable.  Failures become the envelope reported via
`sendInitError`: `FileDoesNotExist` for a module-not-found import error,
`InitError` for any other import failure, `MethodDoesNotExist` /
`MethodIsNotAFunction` for a missing / non-callable export. -/
def initRun (handlerName : String)
    (importResult : Except JSValue JSFields) : InitResult :=
  let fileName := fileNameOf handlerName
  match importResult with
  | .error cause =>
    if isNotFoundErr cause then
      .fail (formatError (mkTypeCause "FileDoesNotExist"
        (.str ("Did not find a file named '" ++ fileName ++ "'"))))
    else
      .fail (formatError (mkTypeCause "InitError" cause))
  | .ok exports =>
    let moduleName := moduleNameOf handlerName
    let handler := resolveExport exports moduleName
    if isFunctionV handler then .ok handler
    else
      .fail (formatError (mkTypeCause
        (if handler = .undefined then "MethodDoesNotExist" else "MethodIsNotAFunction")
        (.str (fileName ++ " does not an function export '" ++ moduleName ++
          "' (handler is " ++ jsToString handler ++ ")"))))

/-- Cold start (`const lambda = await init()` before the loop): on
success the loop starts with the resolved handler and no event has
happened yet; on failure `throwError` sends the envelope through
`sendInitError` (whose HTTP response is `initErrResponse`; a non-`ok`
response makes `lambdaFetch` exit first) and then calls `exit()`, so the
process terminates either way without ever polling. -/
def coldStart (handlerName : String)
    (importResult : Except JSValue JSFields)
    (initErrResponse : HttpResponse) : List Event × Option JSValue :=
  match initRun handlerName importResult with
  | .ok handler => ([], some handler)
  | .fail e =>
    (Event.wire (.sendInitErr e) ::
      (match lambdaFetch initErrResponse with
       | .error msgs => [Event.exitProc msgs]
       | .ok _ => [Event.exitProc []]),
     none)

/-- The last event of a trace, if any. -/
def lastEvent : List Event → Option Event
  | [] => none
  | [e] => some e
  | _ :: e :: rest => lastEvent (e :: rest)

/-- Whether a trace ends with a process exit. -/
def endsExit (events : List Event) : Bool :=
  match lastEvent events with
  | some (.exitProc _) => true
  | _ => false

theorem listStartsWith_append (n y : List Char) :
    listStartsWith (n ++ y) n = true := by
  induction n with
  | nil => cases y <;> simp [listStartsWith]
  | cons c cs ih => simp [listStartsWith, ih]

theorem listOccurs_of_empty (hay : List Char) : listOccurs hay [] = true := by
  cases hay <;> simp [listOccurs, listStartsWith]

theorem listOccurs_self_append (n y : List Char) :
    listOccurs (n ++ y) n = true := by
  cases n with
  | nil => simpa using listOccurs_of_empty y
  | cons c cs =>
    simp [listOccurs, listStartsWith, listStartsWith_append]

theorem listOccurs_append (x n y : List Char) :
    listOccurs (x ++ n ++ y) n = true := by
  induction x with
  | nil => simpa using listOccurs_self_append n y
  | cons c cs ih =>
    have ih' : listOccurs (cs ++ (n ++ y)) n = true := by simpa using ih
    simp [listOccurs, ih']

/-- A string occurs in any string of which it is a middle segment. -/
theorem containsStr_append (a n b : String) :
    containsStr (a ++ n ++ b) n = true := by
  have h : (a ++ n ++ b).data = a.data ++ n.data ++ b.data := by
    simp
  simpa [containsStr, h] using listOccurs_append a.data n.data b.data

/-- Rendering with `Bun.inspect` of a string keeps every middle segment visible. -/
theorem containsStr_inspect_str (a n b : String) :
    containsStr (bunInspect (.str (a ++ n ++ b))) n = true := by
  have hq : ("\"" : String).data = ['"'] := rfl
  have h : (bunInspect (JSValue.str (a ++ n ++ b))).data
      = ('"' :: a.data) ++ n.data ++ (b.data ++ ['"']) := by
    simp [bunInspect, hq]
  unfold containsStr
  rw [h]
  exact listOccurs_append _ _ _

/-- Formatting a structured `\x7b type, cause \x7d` error yields its `type`
as the error type and the inspected `cause` as the message. -/
theorem formatError_mkTypeCause (t : String) (c : JSValue) :
    formatError (mkTypeCause t c) =
      { errorType := .str t, errorMessage := bunInspect c, stackTrace := none } := by
  simp [formatError, mkTypeCause, getField, JSFields.find]

/-- C8: for every invocation, the computed execution budget is
`max(1, deadlineEpochMs - now)` when a deadline was supplied and a
60-second (60000 ms) window when none was. -/
theorem duration_budget (now d : Int) :
    durationMs now (some d) = max 1 (d - now) ∧ durationMs now none = 60000 := by
  constructor
  · rfl
  · simp [durationMs]

/-- C7 counterexample: with no `FOO` in the environment and no fallback,
the resolver terminates the process with a plain fatal message that names
the variable but carries no `ConfigError` classification anywhere — the
claimed `ConfigError` kind does not exist in the code. -/
theorem env_missing_no_config_error_kind :
    env [] "FOO" none =
      .error ["Runtime failed to find the 'FOO' environment variable"] ∧
    containsStr "Runtime failed to find the 'FOO' environment variable"
      "ConfigError" = false := by
  exact ⟨rfl, by decide⟩

/-- C7 (amended): the environment resolver returns the environment value
if present, else the fallback if one was provided, else it terminates the
process with a fatal message naming the missing variable (no `ConfigError`
envelope is produced). -/
theorem env_resolution (environ : List (String × String)) (name : String)
    (fallback : Option String) :
    (∀ value, environ.lookup name = some value →
      env environ name fallback = .ok value) ∧
    (environ.lookup name = none → ∀ f, fallback = some f →
      env environ name fallback = .ok f) ∧
    (environ.lookup name = none → fallback = none →
      env environ name fallback =
        .error ["Runtime failed to find the '" ++ name ++
          "' environment variable"] ∧
      containsStr ("Runtime failed to find the '" ++ name ++
        "' environment variable") name = true) := by
  refine ⟨?_, ?_, ?_⟩
  · intro value h
    simp [env, h]
  · intro h f hf
    simp [env, h, hf]
  · intro h hf
    exact ⟨by simp [env, h, hf],
      containsStr_append "Runtime failed to find the '" name
        "' environment variable"⟩

/-- C7 witness: the three resolution modes at concrete inputs. -/
theorem env_resolution_witness :
    env [("A", "x")] "A" none = .ok "x" ∧
    env [] "B" (some "fb") = .ok "fb" ∧
    env [] "C" none =
      .error ["Runtime failed to find the 'C' environment variable"] := by
  exact ⟨(env_resolution [("A", "x")] "A" none).1 "x" rfl,
    (env_resolution [] "B" (some "fb")).2.1 rfl "fb" rfl,
    ((env_resolution [] "C" none).2.2 rfl rfl).1⟩

/-- C3: for every invocation whose handler returns `X`, the body passed to
`sendInvocationResponse` is: `null`/empty when `X` is `null`, `X` verbatim
when `X` is a string, and the JSON encoding of `X` otherwise. -/
theorem response_body_serialization (pollResponse : HttpResponse) (now : Int)
    (v : JSValue) (reportResponse : HttpResponse) (req : LambdaRequest)
    (hreq : receiveRequest pollResponse = .ok req) :
    Event.wire (.sendInvocationResponse req.requestId (serializeBody v)) ∈
      runIteration pollResponse now (.settled v) reportResponse ∧
    (v = .null → serializeBody v = none) ∧
    (∀ s, v = .str s → serializeBody v = some s) ∧
    (v ≠ .null → (∀ s, v ≠ .str s) → serializeBody v = jsonStringify v) := by
  refine ⟨?_, ?_, ?_, ?_⟩
  · simp [runIteration, hreq, reportStep]
  · rintro rfl
    rfl
  · rintro s rfl
    rfl
  · intro h1 h2
    cases v <;> simp_all [serializeBody]

/-- C3 witness: a handler returning the object `\x7b k: 1 \x7d` has its
JSON encoding sent as the response body for request `rid-1`. -/
theorem response_body_serialization_witness :
    Event.wire (.sendInvocationResponse "rid-1"
        (serializeBody (.obj (.cons "k" (.num 1) .nil)))) ∈
      runIteration
        { ok := true, status := 200,
          headers := [("Lambda-Runtime-Aws-Request-Id", "rid-1"),
                      ("Lambda-Runtime-Trace-Id", "tid-1")],
          jsonBody := some .null }
        0 (.settled (.obj (.cons "k" (.num 1) .nil)))
        { ok := true, status := 202, headers := [], jsonBody := none } ∧
    serializeBody (.obj (.cons "k" (.num 1) .nil)) =
      some "\x7b\"k\":1\x7d" := by
  refine ⟨(response_body_serialization
    ⟨true, 200,
      [("Lambda-Runtime-Aws-Request-Id", "rid-1"),
       ("Lambda-Runtime-Trace-Id", "tid-1")], some .null⟩
    0 (.obj (.cons "k" (.num 1) .nil)) ⟨true, 202, [], none⟩
    ⟨"rid-1", "tid-1", none, .null⟩ rfl).1, by decide⟩

/-- C5: the loader resolves the callable preferring the `default` export
(unless it is nullish) and otherwise the export named by the handler
identifier; an absent resolved value fails with `MethodDoesNotExist`, a
present non-callable one with `MethodIsNotAFunction`. -/
theorem handler_export_resolution (handlerName : String) (exports : JSFields)
    (h : JSValue) (hh : h = resolveExport exports (moduleNameOf handlerName)) :
    ((exports.find "default").getD .undefined ≠ .undefined →
      (exports.find "default").getD .undefined ≠ .null →
      h = (exports.find "default").getD .undefined) ∧
    (((exports.find "default").getD .undefined = .undefined ∨
      (exports.find "default").getD .undefined = .null) →
      h = (exports.find (moduleNameOf handlerName)).getD .undefined) ∧
    (isFunctionV h = true → initRun handlerName (.ok exports) = .ok h) ∧
    (h = .undefined →
      initRun handlerName (.ok exports) =
        .fail ⟨.str "MethodDoesNotExist",
          bunInspect (.str (fileNameOf handlerName ++
            " does not an function export '" ++ moduleNameOf handlerName ++
            "' (handler is " ++ jsToString .undefined ++ ")")), none⟩) ∧
    (h ≠ .undefined → isFunctionV h = false →
      initRun handlerName (.ok exports) =
        .fail ⟨.str "MethodIsNotAFunction",
          bunInspect (.str (fileNameOf handlerName ++
            " does not an function export '" ++ moduleNameOf handlerName ++
            "' (handler is " ++ jsToString h ++ ")")), none⟩) := by
  refine ⟨?_, ?_, ?_, ?_, ?_⟩
  · intro h1 h2
    rw [hh]
    simp only [resolveExport]
    rw [if_neg (fun hc => hc.elim h1 h2)]
  · intro hc
    rw [hh]
    simp only [resolveExport]
    rw [if_pos hc]
  · intro hfun
    have hr : resolveExport exports (moduleNameOf handlerName) = h := hh.symm
    simp [initRun, hr, hfun]
  · intro h0
    have hr : resolveExport exports (moduleNameOf handlerName) = JSValue.undefined :=
      hh.symm.trans h0
    simp [initRun, hr, isFunctionV, formatError_mkTypeCause]
  · intro h0 hfun
    have hr : resolveExport exports (moduleNameOf handlerName) = h := hh.symm
    simp [initRun, hr, hfun, h0, formatError_mkTypeCause]

/-- C5 witness: a named export is used when there is no default export, an
empty module fails with `MethodDoesNotExist`, and a non-callable default
export fails with `MethodIsNotAFunction`. -/
theorem handler_export_resolution_witness :
    ((.func "f" : JSValue) =
      ((JSFields.cons "handler" (.func "f") .nil).find
        (moduleNameOf "index.handler")).getD .undefined) ∧
    initRun "index.handler" (.ok (.cons "handler" (.func "f") .nil)) =
      .ok (.func "f") ∧
    initRun "index.handler" (.ok .nil) =
      .fail ⟨.str "MethodDoesNotExist",
        bunInspect (.str (fileNameOf "index.handler" ++
          " does not an function export '" ++ moduleNameOf "index.handler" ++
          "' (handler is " ++ jsToString .undefined ++ ")")), none⟩ ∧
    initRun "index.handler" (.ok (.cons "default" (.num 3) .nil)) =
      .fail ⟨.str "MethodIsNotAFunction",
        bunInspect (.str (fileNameOf "index.handler" ++
          " does not an function export '" ++ moduleNameOf "index.handler" ++
          "' (handler is " ++ jsToString (.num 3) ++ ")")), none⟩ := by
  refine ⟨(handler_export_resolution "index.handler"
      (.cons "handler" (.func "f") .nil) (.func "f") (by decide)).2.1
      (Or.inl (by decide)),
    (handler_export_resolution "index.handler"
      (.cons "handler" (.func "f") .nil) (.func "f") (by decide)).2.2.1 rfl,
    (handler_export_resolution "index.handler" .nil .undefined rfl).2.2.2.1 rfl,
    (handler_export_resolution "index.handler"
      (.cons "default" (.num 3) .nil) (.num 3) (by decide)).2.2.2.2
      (by decide) rfl⟩

/-- C4: the Error Formatter classification of any caught value: a native
failure object yields an envelope with its own name, message and stack
split into lines; an object carrying an explicit type/cause shape yields
an envelope with that type and the inspected cause as message, with no
stack; anything else is wrapped with kind `UnknownError` and a message
rendering the raw value. -/
theorem error_formatter_classification (v : JSValue) :
    (∀ name message stack, v = .errorObj name message stack →
      formatError (classifyCaught v) =
        ⟨.str name, message, stack.map splitLines⟩) ∧
    (∀ fields, v = .obj fields → isSerializableError v = true →
      formatError (classifyCaught v) =
        ⟨getField v "type", bunInspect (getField v "cause"), none⟩) ∧
    (isSerializableError v = false →
      formatError (classifyCaught v) =
        ⟨.str "UnknownError", bunInspect v, none⟩) := by
  refine ⟨?_, ?_, ?_⟩
  · rintro name message stack rfl
    rfl
  · rintro fields rfl hser
    simp [classifyCaught, hser, formatError]
  · intro hser
    simp [classifyCaught, hser, formatError_mkTypeCause]

/-- C4 witness: the three classification branches at concrete caught
values. -/
theorem error_formatter_classification_witness :
    formatError (classifyCaught (.errorObj "TypeError" "boom" (some "l1\nl2"))) =
      ⟨.str "TypeError", "boom", some ["l1", "l2"]⟩ ∧
    formatError (classifyCaught (.obj (.cons "type" (.str "MyKind")
      (.cons "cause" (.num 5) .nil)))) = ⟨.str "MyKind", "5", none⟩ ∧
    formatError (classifyCaught (.num 7)) =
      ⟨.str "UnknownError", "7", none⟩ := by
  refine ⟨?_, ?_, ?_⟩
  · exact ((error_formatter_classification
      (.errorObj "TypeError" "boom" (some "l1\nl2"))).1
      "TypeError" "boom" (some "l1\nl2") rfl).trans (by decide)
  · exact ((error_formatter_classification (.obj (.cons "type" (.str "MyKind")
      (.cons "cause" (.num 5) .nil)))).2.1 (.cons "type" (.str "MyKind")
      (.cons "cause" (.num 5) .nil)) rfl rfl).trans (by decide)
  · exact ((error_formatter_classification (.num 7)).2.2 rfl).trans (by decide)

/-- C6 counterexample: with task root `/var/task` and handler identifier
`index.handler`, a module-not-found import failure produces a
`FileDoesNotExist` envelope whose message names only the module file name
(`index`) and does not include the attempted path `/var/task/index` —
refuting the claim that the message includes the attempted path. -/
theorem init_not_found_message_lacks_path :
    initRun "index.handler"
      (.error (.errorObj "ResolveMessage"
        "Cannot find module \"/var/task/index\" from \"/runtime.ts\"" none)) =
      .fail ⟨.str "FileDoesNotExist",
        "\"Did not find a file named 'index'\"", none⟩ ∧
    attemptedPath "/var/task" "index.handler" = "/var/task/index" ∧
    containsStr "\"Did not find a file named 'index'\""
      (attemptedPath "/var/task" "index.handler") = false := by
  exact ⟨by decide, by decide, by decide⟩

/-- C6 (amended): a handler identifier naming a module that cannot be
found makes the loader fail with kind `FileDoesNotExist` whose message
includes the module file name (the handler identifier's portion before
the last dot) — not the full attempted path; the failure is reported via
the init-error wire call, and the process exits before ever issuing a
poll. -/
theorem init_file_not_found_reports_and_exits (handlerName : String)
    (cause : JSValue) (initErrResponse : HttpResponse)
    (hnf : isNotFoundErr cause = true) :
    ∃ e, initRun handlerName (.error cause) = .fail e ∧
      e.errorType = .str "FileDoesNotExist" ∧
      containsStr e.errorMessage (fileNameOf handlerName) = true ∧
      (coldStart handlerName (.error cause) initErrResponse).2 = none ∧
      (coldStart handlerName (.error cause) initErrResponse).1.head? =
        some (Event.wire (.sendInitErr e)) ∧
      endsExit (coldStart handlerName (.error cause) initErrResponse).1 = true ∧
      Event.pollNext ∉ (coldStart handlerName (.error cause) initErrResponse).1 := by
  have hinit : initRun handlerName (.error cause) =
      .fail ⟨.str "FileDoesNotExist",
        bunInspect (.str ("Did not find a file named '" ++
          fileNameOf handlerName ++ "'")), none⟩ := by
    simp [initRun, hnf, formatError_mkTypeCause]
  refine ⟨_, hinit, rfl,
    containsStr_inspect_str "Did not find a file named '"
      (fileNameOf handlerName) "'", ?_, ?_, ?_, ?_⟩ <;>
    rcases hfetch : lambdaFetch initErrResponse with msgs | r <;>
      simp [coldStart, hinit, hfetch, endsExit, lastEvent]

/-- C6 witness: the amended claim at a concrete nonexistent module. -/
theorem init_file_not_found_witness :
    ∃ e, initRun "index.handler"
        (.error (.errorObj "ResolveMessage"
          "Cannot find module \"/var/task/index\" from \"/runtime.ts\"" none)) =
        .fail e ∧
      e.errorType = .str "FileDoesNotExist" ∧
      containsStr e.errorMessage (fileNameOf "index.handler") = true ∧
      Event.pollNext ∉ (coldStart "index.handler"
        (.error (.errorObj "ResolveMessage"
          "Cannot find module \"/var/task/index\" from \"/runtime.ts\"" none))
        ⟨true, 202, [], none⟩).1 := by
  obtain ⟨e, h1, h2, h3, _, _, _, h7⟩ :=
    init_file_not_found_reports_and_exits "index.handler"
      (.errorObj "ResolveMessage"
        "Cannot find module \"/var/task/index\" from \"/runtime.ts\"" none)
      ⟨true, 202, [], none⟩ (by decide)
  exact ⟨e, h1, h2, h3, h7⟩

/-- C1: protocol violations are fatal: a missing request-id header, a
missing trace-id header, or an invalid-JSON event body in a poll response
terminates the process without issuing any wire call (in particular no
per-invocation error report); and a non-success HTTP response terminates
the process at the shared `lambdaFetch` chokepoint of all four wire
operations — for the poll itself, for the report call of an iteration,
and for the init-error call. -/
theorem protocol_failures_fatal :
    (∀ response : HttpResponse, response.ok = false →
      lambdaFetch response =
        .error ["Runtime failed to send request to Lambda [status: " ++
          toString response.status ++ "]"]) ∧
    (∀ (response : HttpResponse) (now : Int) (race : RaceOutcome)
      (reportResponse : HttpResponse),
      response.ok = true →
      (headerGet response "Lambda-Runtime-Aws-Request-Id" = none ∨
        headerGet response "Lambda-Runtime-Trace-Id" = none ∨
        response.jsonBody = none) →
      ∃ msgs, runIteration response now race reportResponse =
          [.pollNext, .exitProc msgs] ∧
        ∀ c : WireCall,
          Event.wire c ∉ runIteration response now race reportResponse) ∧
    (∀ (pollResponse : HttpResponse) (now : Int) (race : RaceOutcome)
      (reportResponse : HttpResponse) (req : LambdaRequest),
      receiveRequest pollResponse = .ok req → reportResponse.ok = false →
      endsExit (runIteration pollResponse now race reportResponse) = true ∧
      Event.iterEnd ∉ runIteration pollResponse now race reportResponse) ∧
    (∀ (handlerName : String) (importResult : Except JSValue JSFields)
      (initErrResponse : HttpResponse) (e : LambdaError),
      initRun handlerName importResult = .fail e →
      endsExit (coldStart handlerName importResult initErrResponse).1 = true) := by
  refine ⟨?_, ?_, ?_, ?_⟩
  · intro response hok
    simp [lambdaFetch, hok]
  · intro response now race reportResponse hok hmiss
    have hrr : ∃ msgs, receiveRequest response = .error msgs := by
      rcases h1 : headerGet response "Lambda-Runtime-Aws-Request-Id" with _ | rid
      · exact ⟨["Runtime received a request without a request ID"],
          by simp [receiveRequest, lambdaFetch, hok, h1]⟩
      · rcases h2 : headerGet response "Lambda-Runtime-Trace-Id" with _ | tid
        · exact ⟨["Runtime received a request without a trace ID"],
            by simp [receiveRequest, lambdaFetch, hok, h1, h2]⟩
        · rcases h3 : response.jsonBody with _ | ev
          · exact ⟨["Runtime received a request with invalid JSON"],
              by simp [receiveRequest, lambdaFetch, hok, h1, h2, h3]⟩
          · rcases hmiss with h | h | h <;> simp_all
    obtain ⟨msgs, hrr⟩ := hrr
    exact ⟨msgs, by simp [runIteration, hrr], by simp [runIteration, hrr]⟩
  · intro pollResponse now race reportResponse req hreq hrep
    have hf : lambdaFetch reportResponse =
        .error ["Runtime failed to send request to Lambda [status: " ++
          toString reportResponse.status ++ "]"] := by
      simp [lambdaFetch, hrep]
    cases race <;>
      exact ⟨by simp [runIteration, hreq, reportStep, hf, endsExit, lastEvent],
        by simp [runIteration, hreq, reportStep, hf]⟩
  · intro handlerName importResult initErrResponse e hfail
    rcases hfetch : lambdaFetch initErrResponse with msgs | r <;>
      simp [coldStart, hfail, hfetch, endsExit, lastEvent]

/-- C1 witness: each fatal mode at a concrete input: a failed wire call, a
poll response missing its request id, a failed report call after a valid
poll, and a failed cold start. -/
theorem protocol_failures_fatal_witness :
    (∃ msgs, lambdaFetch ⟨false, 500, [], none⟩ = .error msgs) ∧
    (∃ msgs, runIteration ⟨true, 200, [], some .null⟩ 0 .timedOut
        ⟨true, 200, [], none⟩ = [.pollNext, .exitProc msgs] ∧
      ∀ c : WireCall, Event.wire c ∉ runIteration ⟨true, 200, [], some .null⟩
        0 .timedOut ⟨true, 200, [], none⟩) ∧
    endsExit (runIteration
      ⟨true, 200,
        [("Lambda-Runtime-Aws-Request-Id", "rid-1"),
         ("Lambda-Runtime-Trace-Id", "tid-1")], some .null⟩
      0 .timedOut ⟨false, 500, [], none⟩) = true ∧
    endsExit (coldStart "index.handler" (.ok .nil) ⟨true, 200, [], none⟩).1 =
      true := by
  refine ⟨⟨_, protocol_failures_fatal.1 ⟨false, 500, [], none⟩ rfl⟩,
    protocol_failures_fatal.2.1 ⟨true, 200, [], some .null⟩ 0 .timedOut
      ⟨true, 200, [], none⟩ rfl (Or.inl rfl),
    (protocol_failures_fatal.2.2.1
      ⟨true, 200,
        [("Lambda-Runtime-Aws-Request-Id", "rid-1"),
         ("Lambda-Runtime-Trace-Id", "tid-1")], some .null⟩
      0 .timedOut ⟨false, 500, [], none⟩
      ⟨"rid-1", "tid-1", none, .null⟩ rfl rfl).1,
    protocol_failures_fatal.2.2.2 "index.handler" (.ok .nil)
      ⟨true, 200, [], none⟩
      ⟨.str "MethodDoesNotExist",
        "\"index does not an function export 'handler' (handler is undefined)\"",
        none⟩ (by decide)⟩

/-- C2: when the handler settles first by throwing, the caught value is
classified via the Error Formatter, reported through `sendInvocationError`
with the current request id, the trace slot is cleared, and the iteration
ends back at the poll loop — the process does not terminate. -/
theorem handler_throw_recovers (pollResponse : HttpResponse) (now : Int)
    (cause : JSValue) (reportResponse : HttpResponse) (req : LambdaRequest)
    (hreq : receiveRequest pollResponse = .ok req)
    (hrep : reportResponse.ok = true) :
    runIteration pollResponse now (.threw cause) reportResponse =
      [.pollNext, .setTrace req.traceId, .invokeHandler req.event,
       .wire (.sendInvocationErr req.requestId
         (formatError (classifyCaught cause))),
       .resetTrace, .iterEnd] ∧
    (∀ msgs, Event.exitProc msgs ∉
      runIteration pollResponse now (.threw cause) reportResponse) ∧
    lastEvent (runIteration pollResponse now (.threw cause) reportResponse) =
      some .iterEnd := by
  have hf : lambdaFetch reportResponse = .ok reportResponse := by
    simp [lambdaFetch, hrep]
  refine ⟨?_, ?_, ?_⟩ <;>
    simp [runIteration, hreq, reportStep, hf, lastEvent]

/-- C2 witness: a handler throwing the bare number `3` on request `rid-1`
leads to a reported `UnknownError` and an iteration that ends normally. -/
theorem handler_throw_recovers_witness :
    runIteration
      ⟨true, 200,
        [("Lambda-Runtime-Aws-Request-Id", "rid-1"),
         ("Lambda-Runtime-Trace-Id", "tid-1")], some .null⟩
      0 (.threw (.num 3)) ⟨true, 202, [], none⟩ =
      [.pollNext, .setTrace "tid-1", .invokeHandler .null,
       .wire (.sendInvocationErr "rid-1"
         (formatError (classifyCaught (.num 3)))),
       .resetTrace, .iterEnd] := by
  exact (handler_throw_recovers
    ⟨true, 200,
      [("Lambda-Runtime-Aws-Request-Id", "rid-1"),
       ("Lambda-Runtime-Trace-Id", "tid-1")], some .null⟩
    0 (.num 3) ⟨true, 202, [], none⟩
    ⟨"rid-1", "tid-1", none, .null⟩ rfl rfl).1

/-- C9: when the budget timer elapses first, a `TimeoutError` envelope
whose message embeds the computed duration in milliseconds is reported
through `sendInvocationError`, and the iteration ends back at the poll
loop without any response for the abandoned handler and without
terminating the process. -/
theorem timeout_reported_loop_continues (pollResponse : HttpResponse)
    (now : Int) (reportResponse : HttpResponse) (req : LambdaRequest)
    (hreq : receiveRequest pollResponse = .ok req)
    (hrep : reportResponse.ok = true) :
    ∃ e, runIteration pollResponse now .timedOut reportResponse =
        [.pollNext, .setTrace req.traceId, .invokeHandler req.event,
         .resetTrace, .wire (.sendInvocationErr req.requestId e), .iterEnd] ∧
      e.errorType = .str "TimeoutError" ∧
      e.errorMessage = bunInspect (.str ("Function timed out after " ++
        toString (durationMs now req.deadlineMs) ++ "ms")) ∧
      containsStr e.errorMessage (toString (durationMs now req.deadlineMs)) =
        true ∧
      (∀ rid body, Event.wire (.sendInvocationResponse rid body) ∉
        runIteration pollResponse now .timedOut reportResponse) ∧
      (∀ msgs, Event.exitProc msgs ∉
        runIteration pollResponse now .timedOut reportResponse) := by
  have hf : lambdaFetch reportResponse = .ok reportResponse := by
    simp [lambdaFetch, hrep]
  refine ⟨formatError (mkTypeCause "TimeoutError"
    (.str ("Function timed out after " ++
      toString (durationMs now req.deadlineMs) ++ "ms"))), ?_, ?_, ?_, ?_, ?_, ?_⟩
  · simp [runIteration, hreq, reportStep, hf]
  · rw [formatError_mkTypeCause]
  · rw [formatError_mkTypeCause]
  · rw [formatError_mkTypeCause]
    exact containsStr_inspect_str "Function timed out after "
      (toString (durationMs now req.deadlineMs)) "ms"
  · intro rid body
    simp [runIteration, hreq, reportStep, hf]
  · intro msgs
    simp [runIteration, hreq, reportStep, hf]

/-- C9 witness: with deadline 5000 at time 1000 the computed budget is
4000 ms and the reported timeout message embeds `4000`. -/
theorem timeout_reported_witness :
    ∃ e, runIteration
        ⟨true, 200,
          [("Lambda-Runtime-Aws-Request-Id", "rid-1"),
           ("Lambda-Runtime-Trace-Id", "tid-1"),
           ("Lambda-Runtime-Deadline-Ms", "5000")], some .null⟩
        1000 .timedOut ⟨true, 202, [], none⟩ =
        [.pollNext, .setTrace "tid-1", .invokeHandler .null, .resetTrace,
         .wire (.sendInvocationErr "rid-1" e), .iterEnd] ∧
      e.errorType = .str "TimeoutError" ∧
      containsStr e.errorMessage "4000" = true := by
  obtain ⟨e, h1, h2, _, h4, _, _⟩ := timeout_reported_loop_continues
    ⟨true, 200,
      [("Lambda-Runtime-Aws-Request-Id", "rid-1"),
       ("Lambda-Runtime-Trace-Id", "tid-1"),
       ("Lambda-Runtime-Deadline-Ms", "5000")], some .null⟩
    1000 ⟨true, 202, [], none⟩ ⟨"rid-1", "tid-1", some 5000, .null⟩ rfl rfl
  have hd : toString (durationMs 1000 (some 5000)) = "4000" := by decide
  rw [hd] at h4
  exact ⟨e, h1, h2, h4⟩

/-- C10: for every invocation, the trace slot is set to the invocation's
trace id immediately before the handler is invoked, a reset occurs on
every race outcome, and at the end of the iteration — before the next
poll — the slot is empty. -/
theorem trace_slot_lifecycle (pollResponse : HttpResponse) (now : Int)
    (race : RaceOutcome) (reportResponse : HttpResponse) (req : LambdaRequest)
    (hreq : receiveRequest pollResponse = .ok req)
    (hrep : reportResponse.ok = true) :
    (runIteration pollResponse now race reportResponse).take 3 =
      [.pollNext, .setTrace req.traceId, .invokeHandler req.event] ∧
    traceSlotAfter ((runIteration pollResponse now race reportResponse).take 3) =
      some req.traceId ∧
    Event.resetTrace ∈ runIteration pollResponse now race reportResponse ∧
    traceSlotAfter (runIteration pollResponse now race reportResponse) = none ∧
    lastEvent (runIteration pollResponse now race reportResponse) =
      some .iterEnd := by
  have hf : lambdaFetch reportResponse = .ok reportResponse := by
    simp [lambdaFetch, hrep]
  cases race <;>
    refine ⟨?_, ?_, ?_, ?_, ?_⟩ <;>
      simp [runIteration, hreq, reportStep, hf, traceSlotAfter, lastEvent]

/-- C10 witness: the trace-slot lifecycle on a concrete successful
invocation. -/
theorem trace_slot_lifecycle_witness :
    traceSlotAfter ((runIteration
      ⟨true, 200,
        [("Lambda-Runtime-Aws-Request-Id", "rid-1"),
         ("Lambda-Runtime-Trace-Id", "tid-1")], some .null⟩
      0 (.settled (.str "done")) ⟨true, 202, [], none⟩).take 3) = some "tid-1" ∧
    traceSlotAfter (runIteration
      ⟨true, 200,
        [("Lambda-Runtime-Aws-Request-Id", "rid-1"),
         ("Lambda-Runtime-Trace-Id", "tid-1")], some .null⟩
      0 (.settled (.str "done")) ⟨true, 202, [], none⟩) = none := by
  obtain ⟨_, h2, _, h4, _⟩ := trace_slot_lifecycle
    ⟨true, 200,
      [("Lambda-Runtime-Aws-Request-Id", "rid-1"),
       ("Lambda-Runtime-Trace-Id", "tid-1")], some .null⟩
    0 (.settled (.str "done")) ⟨true, 202, [], none⟩
    ⟨"rid-1", "tid-1", none, .null⟩ rfl rfl
  exact ⟨h2, h4⟩

end BunRuntime


